import Mathlib

/-!
Shallow embedding of `src/fetch_account_payables.py`.

The program is a linear script: validate (ticker, year, api_key), issue one
HTTP GET, parse the JSON body, scan the `data` list for the record whose
`calendarYear` equals the requested year, project eight fields, and print a
formatted report.  We embed Python values reaching the script as an inductive
`JVal` (JSON-shaped dynamic values; numbers are modelled as integers), the
network as an oracle `HttpOutcome`, and each Python function as a total Lean
function returning its printed output and result, with raised exceptions made
explicit via `Except` / an exception field.
-/

/-- A dynamic (JSON-shaped) Python value.  Numbers are modelled as integers;
the payloads in scope carry integer years and integer payable amounts. -/
inductive JVal where
  | null : JVal
  | bool : Bool → JVal
  | num  : Int → JVal
  | str  : String → JVal
  | arr  : List JVal → JVal
  | obj  : List (String × JVal) → JVal
deriving Repr, BEq

/-- Python truthiness (`bool(x)`): `None`, `False`, `0`, `""`, `[]`, `{}` are
falsy, everything else truthy. -/
def truthy : JVal → Bool
  | .null => false
  | .bool b => b
  | .num n => n != 0
  | .str s => s ≠ ""
  | .arr l => !l.isEmpty
  | .obj l => !l.isEmpty

/-- `isinstance(x, str)`. -/
def isStr : JVal → Bool
  | .str _ => true
  | _ => false

/-- `isinstance(x, int)`: in Python `bool` is a subclass of `int`, so booleans
count as integers. -/
def isInstInt : JVal → Bool
  | .num _ => true
  | .bool _ => true
  | _ => false

/-- The integer value of a Python int (booleans count as 0 / 1); junk 0 on
other constructors, used only after an `isInstInt` guard. -/
def pyIntVal : JVal → Int
  | .num n => n
  | .bool b => if b then 1 else 0
  | _ => 0

/-- The string carried by a Python str; junk on other constructors, used only
after an `isStr` guard. -/
def jStrVal : JVal → String
  | .str s => s
  | _ => ""

/-- `type(x).__name__` for the values we model. -/
def pyTypeName : JVal → String
  | .null => "NoneType"
  | .bool _ => "bool"
  | .num _ => "int"
  | .str _ => "str"
  | .arr _ => "list"
  | .obj _ => "dict"

/-- A single-quote character as a string (used in Python error messages). -/
def squote : String := String.singleton (Char.ofNat 39)

mutual

/-- `repr(x)` as Python would print it inside f-strings for containers.
String escaping inside `repr` is simplified to plain quoting. -/
def pyRepr : JVal → String
  | .null => "None"
  | .bool b => if b then "True" else "False"
  | .num n => toString n
  | .str s => squote ++ s ++ squote
  | .arr xs => "[" ++ pyReprItems xs ++ "]"
  | .obj kvs => "\x7b" ++ pyReprPairs kvs ++ "\x7d"

/-- Comma-separated `repr`s of the elements of a Python list. -/
def pyReprItems : List JVal → String
  | [] => ""
  | [x] => pyRepr x
  | x :: y :: rest => pyRepr x ++ ", " ++ pyReprItems (y :: rest)

/-- Comma-separated `key: value` entries of a Python dict `repr`. -/
def pyReprPairs : List (String × JVal) → String
  | [] => ""
  | [(k, v)] => squote ++ k ++ squote ++ ": " ++ pyRepr v
  | (k, v) :: p :: rest =>
      squote ++ k ++ squote ++ ": " ++ pyRepr v ++ ", " ++ pyReprPairs (p :: rest)

end

/-- `str(x)` as used by f-string interpolation. -/
def pyStr : JVal → String
  | .str s => s
  | v => pyRepr v

/-- `d.get(k)` on a Python dict: the stored value, or `None` when absent.
First binding wins, as in a Python dict built without duplicate keys. -/
def dictGet (kvs : List (String × JVal)) (k : String) : JVal :=
  match kvs.find? (fun kv => kv.1 == k) with
  | some kv => kv.2
  | none => .null

/-- `d.get(k, default)` on a Python dict. -/
def dictGetD (kvs : List (String × JVal)) (k : String) (dflt : JVal) : JVal :=
  match kvs.find? (fun kv => kv.1 == k) with
  | some kv => kv.2
  | none => dflt

/-- `x.get(k)` on an arbitrary value: on a dict it is `dictGet`; on anything
else Python raises `AttributeError`.  `none` models the raised exception. -/
def pyGetAttr : JVal → String → Option JVal
  | .obj kvs, k => some (dictGet kvs k)
  | _, _ => none

/-- The `AttributeError` message Python prints for `x.get(...)` on a
non-dict value. -/
def attrErrMsg (v : JVal) : String :=
  squote ++ pyTypeName v ++ squote ++ " object has no attribute " ++ squote ++ "get" ++ squote

/-- Python equality `v == y` between a decoded JSON value and an int `y`:
true for the int itself and for booleans (`True == 1`); strings, lists,
dicts and `None` never compare equal to an int (no coercion). -/
def jEqInt : JVal → Int → Bool
  | .num n, y => n == y
  | .bool b, y => (if b then (1 : Int) else 0) == y
  | _, _ => false

example : jEqInt (.num 2025) 2025 = true := by decide
example : jEqInt (.str "2025") 2025 = false := by decide
example : truthy (.str "") = false := by decide
example : pyStr (.arr [.num 1, .str "a"]) = "[1, " ++ squote ++ "a" ++ squote ++ "]" := by rfl

/-- Python equality `v == t` between a decoded JSON value and a string `t`:
true only for the equal string, never across types. -/
def jEqStr : JVal → String → Bool
  | .str s, t => s == t
  | _, _ => false

/-- A Python exception as it matters to `main`: `ValueError` is caught there,
`TypeError` is not. -/
inductive PyExc where
  | typeError (msg : String)
  | valueError (msg : String)
deriving Repr, BEq, DecidableEq

/-- Insert a comma after every third character, working on a reversed digit
list (the helper behind Python's `,` thousands grouping). -/
def insertCommasRev : List Char → List Char
  | a :: b :: c :: d :: rest => a :: b :: c :: ',' :: insertCommasRev (d :: rest)
  | l => l

/-- Python `format(n, " ,")` on an int: sign-aware space (space for `n ≥ 0`,
minus for `n < 0`) followed by the digits grouped in threes by commas. -/
def fmtComma (n : Int) : String :=
  (if n < 0 then "-" else " ") ++
    String.mk (insertCommasRev (toString n.natAbs).toList.reverse).reverse

/-- `format(v, " ,")` for an arbitrary value: ints and bools format
numerically, strings raise `ValueError`, everything else `TypeError`
(this is what the f-string `{x: ,}` in the source does). -/
def pyFormatSpaceComma : JVal → Except PyExc String
  | .num n => .ok (fmtComma n)
  | .bool b => .ok (fmtComma (if b then 1 else 0))
  | .str _ => .error (.valueError "Sign not allowed in string format specifier")
  | v => .error (.typeError ("unsupported format string passed to " ++ pyTypeName v ++ ".__format__"))

/-- The eight-field projection built on a year match (the `result` dict in
`get_account_payables`). -/
structure PayablesSummary where
  ticker : JVal
  company_name : JVal
  year : JVal
  period : JVal
  filing_date : JVal
  accepted_date : JVal
  accountPayables : JVal
  currency : JVal
deriving Repr, BEq

/-- The `result` dict assembled from a matching record via `record.get`. -/
def projectRecord (kvs : List (String × JVal)) : PayablesSummary where
  ticker := dictGet kvs "symbol"
  company_name := dictGet kvs "company_name"
  year := dictGet kvs "calendarYear"
  period := dictGet kvs "period"
  filing_date := dictGet kvs "fillingDate"
  accepted_date := dictGet kvs "acceptedDate"
  accountPayables := dictGet kvs "accountPayables"
  currency := dictGet kvs "reportedCurrency"

/-- The `for record in financial_records` loop: return the projection of the
first record whose `calendarYear` compares equal to `year`; a non-dict
element raises `AttributeError` (`.error`) at its turn, as `record.get`
does in Python. -/
def searchRecords (records : List JVal) (year : Int) : Except String (Option PayablesSummary) :=
  match records with
  | [] => .ok none
  | r :: rest =>
    match r with
    | .obj kvs =>
        if jEqInt (dictGet kvs "calendarYear") year then .ok (some (projectRecord kvs))
        else searchRecords rest year
    | other => .error (attrErrMsg other)

/-- The body of the `try` block after `response.json()` succeeded: the status
and data checks, the list check, and the year search.  Returns the printed
diagnostics and the optional summary; exceptions raised inside (AttributeError
on non-dict values) are already converted to the `Unexpected error` print by
the final `except Exception` handler. -/
def handlePayload (year : Int) : JVal → List String × Option PayablesSummary
  | .obj kvs =>
    if !jEqStr (dictGet kvs "status") "success" || !truthy (dictGet kvs "data") then
      (["API Error: " ++ pyStr (dictGetD kvs "status" (.str "Unknown error"))], none)
    else
      match dictGetD kvs "data" (.arr []) with
      | .arr records =>
          match searchRecords records year with
          | .error m => (["Unexpected error: " ++ m], none)
          | .ok none => (["No data found for year " ++ toString year], none)
          | .ok (some s) => ([], some s)
      | _ => (["Error: Expected data to be a list of records"], none)
  | other => (["Unexpected error: " ++ attrErrMsg other], none)

/-- The possible outcomes of `requests.get` + `raise_for_status` +
`response.json()`: timeout, connection failure, non-2xx status, any other
request exception, or a 2xx body whose JSON parse either fails (`none`)
or yields a value. -/
inductive HttpOutcome where
  | timeout
  | connectionError
  | httpError (status : Nat) (reason : String)
  | otherError (msg : String)
  | body (parsed : Option JVal)
deriving Repr, BEq

/-- The HTTP request the script describes: URL, headers, timeout. -/
structure HttpRequest where
  url : String
  headers : List (String × String)
  timeout : Nat
deriving Repr, BEq, DecidableEq

/-- `url = f"https://ac-api-server.vercel.app/server/company/{ticker}"`. -/
def apiUrl (ticker : String) : String :=
  "https://ac-api-server.vercel.app/server/company/" ++ ticker

/-- The `headers` dict literal from the source.  Note that it carries the
hardcoded string `"APIKEYINSERT"`, not the `api_key` argument. -/
def requestHeaders : List (String × String) :=
  [("x-api-key", "APIKEYINSERT"), ("Content-Type", "application/json")]

/-- The request issued by `requests.get(url, headers=headers, timeout=10)`.
The `api_key` argument is in scope in the source but unused by it. -/
def buildRequest (ticker : String) (api_key : String) : HttpRequest :=
  { url := apiUrl ticker, headers := requestHeaders, timeout := 10 }

/-- The whole `try`/`except` region of `get_account_payables`, given the
network outcome for the issued request: the initial `Fetching` print, then
either an exception handler print or the payload handling. -/
def tryFetch (ticker : String) (year : Int) (net : HttpOutcome) :
    List String × Option PayablesSummary :=
  let fetchLine := "\nFetching data for " ++ ticker ++ "..."
  match net with
  | .timeout => ([fetchLine, "Request timed out while fetching data for " ++ ticker], none)
  | .connectionError => ([fetchLine, "Connection error while fetching data for " ++ ticker], none)
  | .httpError st reason => ([fetchLine, "HTTP Error: " ++ toString st ++ " - " ++ reason], none)
  | .otherError m => ([fetchLine, "Unexpected error: " ++ m], none)
  | .body none => ([fetchLine, "Error: Could not parse API response as JSON"], none)
  | .body (some data) =>
      let (msgs, res) := handlePayload year data
      (fetchLine :: msgs, res)

/-- The three argument checks at the top of `get_account_payables`, over
dynamic (Python-typed) arguments; `some msg` is the raised `ValueError`. -/
def validateArgs (ticker year api_key : JVal) : Option String :=
  if !truthy ticker || !isStr ticker then
    some "Ticker must be a non-empty string"
  else if !isInstInt year || pyIntVal year < 1900 || pyIntVal year > 2100 then
    some "Year must be a valid integer between 1900 and 2100"
  else if !truthy api_key || !isStr api_key then
    some "API key must be a non-empty string"
  else none

/-- `get_account_payables(ticker, year, api_key)`: validation (whose
`ValueError` propagates, `.error`), then the request and the `try` region.
The network is an oracle mapping the issued request to its outcome. -/
def get_account_payables (ticker year api_key : JVal) (net : HttpRequest → HttpOutcome) :
    Except String (List String × Option PayablesSummary) :=
  match validateArgs ticker year api_key with
  | some msg => .error msg
  | none =>
      let t := jStrVal ticker
      .ok (tryFetch t (pyIntVal year) (net (buildRequest t (jStrVal api_key))))

/-- A row of 70 equals signs (`"="*70`). -/
def eq70 : String := String.mk (List.replicate 70 '=')

/-- A row of 70 dashes (`"-"*70`). -/
def dash70 : String := String.mk (List.replicate 70 '-')

/-- `display_account_payables(result)`: the list of printed lines and the
exception, if any, raised while formatting the payables value.  With a
summary, the nine header/field lines and the divider print first; the final
two lines print only if `format(accountPayables, " ,")` succeeds. -/
def display_account_payables : Option PayablesSummary → List String × Option PyExc
  | none => (["No data to display"], none)
  | some r =>
    let pre := ["\n" ++ eq70,
      "ACCOUNT PAYABLES INFORMATION",
      eq70,
      "Company:             " ++ pyStr r.company_name,
      "Ticker:              " ++ pyStr r.ticker,
      "Year:                " ++ pyStr r.year,
      "Period:              " ++ pyStr r.period,
      "Filing Date:         " ++ pyStr r.filing_date,
      "Currency:            " ++ pyStr r.currency,
      dash70]
    match pyFormatSpaceComma r.accountPayables with
    | .error e => (pre, some e)
    | .ok s => (pre ++ ["Account Payables:     " ++ s ++ " " ++ pyStr r.currency,
                        eq70 ++ "\n"], none)

/-- Python whitespace, as `str.strip()` removes it (ASCII model). -/
def pyIsSpace (c : Char) : Bool :=
  c == ' ' || c == '\t' || c == '\n' || c == '\r' || c == '\x0b' || c == '\x0c'

/-- `s.strip()`: drop leading and trailing whitespace. -/
def pyStrip (s : String) : String :=
  String.mk (((s.toList.dropWhile pyIsSpace).reverse.dropWhile pyIsSpace).reverse)

/-- Uppercase one character (ASCII model of `str.upper()`). -/
def pyUpperChar (c : Char) : Char :=
  if 'a' ≤ c ∧ c ≤ 'z' then Char.ofNat (c.toNat - 32) else c

/-- `s.upper()`: uppercase every character. -/
def pyUpper (s : String) : String := String.mk (s.toList.map pyUpperChar)

/-- The entry point's ticker normalisation `input(...).strip().upper()`. -/
def normTicker (s : String) : String := pyUpper (pyStrip s)

/-- A nonempty all-digit run parsed to its value. -/
def parseDigits (cs : List Char) : Option Nat :=
  if cs ≠ [] && cs.all Char.isDigit then
    some (cs.foldl (fun acc c => acc * 10 + (c.toNat - 48)) 0)
  else none

/-- `int(s)` on a stripped string: optional sign then decimal digits;
`none` models the raised `ValueError`.  (Python also accepts underscore
group separators and non-ASCII digits; those are not modelled.) -/
def pyParseInt (s : String) : Option Int :=
  match (pyStrip s).toList with
  | [] => none
  | c :: rest =>
    if c == '+' then (parseDigits rest).map Int.ofNat
    else if c == '-' then (parseDigits rest).map (fun n => -(n : Int))
    else (parseDigits (c :: rest)).map Int.ofNat

/-- The two lines printed when the API key constant is still the placeholder. -/
def placeholderLines : List String :=
  ["Error: Please set your API key in the script first.",
   "Replace " ++ squote ++ "INSERT YOUR API KEY" ++ squote ++ " with your actual API key."]

/-- The banner printed before the interactive prompts. -/
def bannerLines : List String := ["\n" ++ eq70, "COMPANY ACCOUNT PAYABLES FETCHER", eq70]

/-- The ticker prompt string. -/
def tickerPrompt : String := "Enter company ticker (e.g., RELIANCE.NS): "

/-- The year prompt string. -/
def yearPrompt : String := "Enter the year (e.g., 2025): "

/-- The `main()` function, parameterised by the `API_KEY` constant the operator has put in
the source, the two interactive inputs, and the network oracle.  Returns the
stdout chunks in order and the process exit code (0 for a normal return,
1 for `sys.exit(1)` and for an uncaught exception).  Only `ValueError` is
caught by the `try` around fetch and display; the `TypeError` that the
display f-string can raise propagates and kills the process. -/
def mainRun (apiKey tickerInput yearInput : String) (net : HttpRequest → HttpOutcome) :
    List String × Nat :=
  if apiKey == "INSERT YOUR API KEY" then (placeholderLines, 1)
  else
    let ticker := normTicker tickerInput
    if ticker == "" then (bannerLines ++ [tickerPrompt, "Error: Ticker cannot be empty"], 1)
    else
      match pyParseInt yearInput with
      | none => (bannerLines ++ [tickerPrompt, yearPrompt, "Error: Year must be a valid integer"], 1)
      | some y =>
        let pre := bannerLines ++ [tickerPrompt, yearPrompt]
        match get_account_payables (.str ticker) (.num y) (.str apiKey) net with
        | .error msg => (pre ++ ["Error: " ++ msg], 1)
        | .ok (msgs, none) =>
            (pre ++ msgs ++
              ["✗ Failed to retrieve data for " ++ ticker ++ " in year " ++ toString y], 0)
        | .ok (msgs, some r) =>
            match display_account_payables (some r) with
            | (lines, some (.valueError m)) => (pre ++ msgs ++ lines ++ ["Error: " ++ m], 1)
            | (lines, some (.typeError _)) => (pre ++ msgs ++ lines, 1)
            | (lines, none) =>
                match pyFormatSpaceComma r.accountPayables with
                | .ok s => (pre ++ msgs ++ lines ++
                    ["✓ Successfully retrieved Account Payables:  " ++ s], 0)
                | .error _ => (pre ++ msgs ++ lines, 1)

/-- Whether a value is a Python dict. -/
def isObj : JVal → Bool
  | .obj _ => true
  | _ => false

/-- The loop guard `record.get("calendarYear") == year` as a predicate on a
record value (false on non-dicts, where the real loop would raise first). -/
def recordYearMatches (y : Int) : JVal → Bool
  | .obj kvs => jEqInt (dictGet kvs "calendarYear") y
  | _ => false

/-- The projection of a record value; junk on non-dicts (unreachable: a
non-dict never satisfies `recordYearMatches`). -/
def projectJ : JVal → PayablesSummary
  | .obj kvs => projectRecord kvs
  | _ => projectRecord []

/-- First record of the spec test payload: year 2024, payables 500. -/
def specRec2024 : JVal := .obj [("calendarYear", .num 2024), ("accountPayables", .num 500)]

/-- Second record of the spec test payload: year 2025, payables 700,
symbol X, currency USD. -/
def specRec2025 : JVal :=
  .obj [("calendarYear", .num 2025), ("accountPayables", .num 700),
        ("symbol", .str "X"), ("reportedCurrency", .str "USD")]

/-- The spec test payload with status success and the two records. -/
def specPayload : JVal :=
  .obj [("status", .str "success"), ("data", .arr [specRec2024, specRec2025])]

/-- Claim C1: the claim says the GET carries the validated `api_key` value in
the `x-api-key` header.  Evaluating the code at ticker `"AAPL"`, api key
`"my-secret-key"`: the issued request does use the fixed URL, the JSON
content type and timeout 10, but its `x-api-key` header is the hardcoded
placeholder `"APIKEYINSERT"`, and the supplied key value appears in no
header — the code contradicts its own docstring, which presents `api_key`
as the authentication credential. -/
theorem C1_header_is_hardcoded_placeholder :
    (buildRequest "AAPL" "my-secret-key").headers =
      [("x-api-key", "APIKEYINSERT"), ("Content-Type", "application/json")] ∧
    (buildRequest "AAPL" "my-secret-key").timeout = 10 ∧
    (buildRequest "AAPL" "my-secret-key").url =
      "https://ac-api-server.vercel.app/server/company/AAPL" ∧
    ("x-api-key", "my-secret-key") ∉ (buildRequest "AAPL" "my-secret-key").headers := by
  refine ⟨rfl, rfl, rfl, ?_⟩
  decide

/-- Claim C3: on the spec test payload with target year 2025 the selector
returns the summary with payables 700, currency USD, ticker X, year taken
from the record, and the remaining fields null since absent; with target
year 2099 it returns no data (and prints the no-data diagnostic). -/
theorem C3_concrete_payload_selection :
    get_account_payables (.str "TCK") (.num 2025) (.str "key")
        (fun _ => .body (some specPayload)) =
      .ok (["\nFetching data for TCK..."],
        some { ticker := .str "X", company_name := .null, year := .num 2025,
               period := .null, filing_date := .null, accepted_date := .null,
               accountPayables := .num 700, currency := .str "USD" }) ∧
    get_account_payables (.str "TCK") (.num 2099) (.str "key")
        (fun _ => .body (some specPayload)) =
      .ok (["\nFetching data for TCK...", "No data found for year 2099"], none) :=
  ⟨rfl, rfl⟩

/-- Claim C5: validation succeeds exactly when the ticker is a non-empty
string, the year an integer in [1900, 2100] and the api key a non-empty
string; a validation failure propagates as the `ValueError` out of
`get_account_payables` without consulting the network oracle, and on success
the validated values themselves are what the fetch runs with; the boundary
years 1900 and 2100 pass while 1899 and 2101 fail. -/
theorem C5_validation_characterisation :
    (∀ t y k : JVal,
      (validateArgs t y k = none ↔
        (isStr t = true ∧ truthy t = true) ∧
        (isInstInt y = true ∧ 1900 ≤ pyIntVal y ∧ pyIntVal y ≤ 2100) ∧
        (isStr k = true ∧ truthy k = true)) ∧
      (∀ (net : HttpRequest → HttpOutcome) (m : String),
        validateArgs t y k = some m → get_account_payables t y k net = .error m) ∧
      (∀ net : HttpRequest → HttpOutcome,
        validateArgs t y k = none →
          get_account_payables t y k net =
            .ok (tryFetch (jStrVal t) (pyIntVal y)
                  (net (buildRequest (jStrVal t) (jStrVal k)))))) ∧
    validateArgs (.str "A") (.num 1900) (.str "K") = none ∧
    validateArgs (.str "A") (.num 2100) (.str "K") = none ∧
    (validateArgs (.str "A") (.num 1899) (.str "K")).isSome = true ∧
    (validateArgs (.str "A") (.num 2101) (.str "K")).isSome = true := by
  refine ⟨fun t y k => ⟨?_, ?_, ?_⟩, rfl, rfl, rfl, rfl⟩
  · unfold validateArgs
    split_ifs with h1 h2 h3
    · constructor
      · intro h; exact absurd h (by simp)
      · rintro ⟨⟨hs, ht⟩, -, -⟩
        simp [hs, ht] at h1
    · constructor
      · intro h; exact absurd h (by simp)
      · rintro ⟨-, ⟨hi, hlo, hhi⟩, -⟩
        simp [hi] at h2
        omega
    · constructor
      · intro h; exact absurd h (by simp)
      · rintro ⟨-, -, hs, ht⟩
        simp [hs, ht] at h3
    · simp only [Bool.or_eq_true, Bool.not_eq_true', not_or, Bool.not_eq_false,
        decide_eq_true_eq] at h1 h2 h3
      obtain ⟨⟨hi, hlo⟩, hhi⟩ := h2
      refine ⟨fun _ => ⟨⟨h1.2, h1.1⟩, ⟨hi, by omega, by omega⟩, h3.2, h3.1⟩, fun _ => rfl⟩
  · intro net m h
    simp [get_account_payables, h]
  · intro net h
    simp [get_account_payables, h]

/-- Witness for C5 at a concrete rejected year: 1899 is refused with the
year message, before and independent of any network outcome. -/
theorem C5_validation_witness :
    get_account_payables (.str "A") (.num 1899) (.str "K") (fun _ => .timeout) =
      .error "Year must be a valid integer between 1900 and 2100" :=
  ((C5_validation_characterisation.1 (.str "A") (.num 1899) (.str "K")).2.1
    (fun _ => .timeout) _ rfl)

/-- Claim C8: the pipeline is deterministic — two runs with the same key,
inputs and network oracle produce the same output chunks and exit code. -/
theorem C8_pipeline_deterministic
    (k t yi : String) (net : HttpRequest → HttpOutcome)
    (out1 out2 : List String × Nat)
    (h1 : out1 = mainRun k t yi net) (h2 : out2 = mainRun k t yi net) :
    out1 = out2 := by
  rw [h1, h2]

/-- Witness for C8 on a concrete run (placeholder key, so both runs exit 1
with the placeholder message). -/
theorem C8_pipeline_deterministic_witness :
    (placeholderLines, 1) = (placeholderLines, (1 : Nat)) :=
  C8_pipeline_deterministic "INSERT YOUR API KEY" "T" "2025" (fun _ => .timeout)
    (placeholderLines, 1) (placeholderLines, 1) rfl rfl

/-- Claim C10: the entry point normalises the entered ticker by stripping
surrounding whitespace and upper-casing before validating and fetching, so
two ticker inputs with the same normal form give the same issued request
and identical output. -/
theorem C10_ticker_normalisation
    (t1 t2 k yi : String) (net : HttpRequest → HttpOutcome)
    (h : normTicker t1 = normTicker t2) :
    mainRun k t1 yi net = mainRun k t2 yi net ∧
    buildRequest (normTicker t1) k = buildRequest (normTicker t2) k := by
  unfold mainRun
  rw [h]
  exact ⟨rfl, rfl⟩

/-- Witness for C10: `"  aapl "` and `"AAPL"` normalise alike and behave
alike. -/
theorem C10_ticker_normalisation_witness :
    mainRun "key" "  aapl " "2025" (fun _ => .timeout) =
      mainRun "key" "AAPL" "2025" (fun _ => .timeout) ∧
    buildRequest (normTicker "  aapl ") "key" =
      buildRequest (normTicker "AAPL") "key" :=
  C10_ticker_normalisation "  aapl " "AAPL" "key" "2025" (fun _ => .timeout) (by decide)

/-- Claim C2: over a list of record mappings, the year loop returns exactly
the projection of the first record whose `calendarYear` compares equal to the
target year under Python int equality (first match wins), and a string-typed
year field never compares equal (no coercion). -/
theorem C2_first_match_projection (records : List JVal) (y : Int)
    (h : ∀ r ∈ records, isObj r = true) :
    searchRecords records y =
      .ok ((records.find? (recordYearMatches y)).map projectJ) ∧
    (∀ s : String, jEqInt (.str s) y = false) := by
  refine ⟨?_, fun s => rfl⟩
  revert h
  induction records with
  | nil => intro h; rfl
  | cons r rest ih =>
    intro h
    have hr : isObj r = true := h r (List.mem_cons_self r rest)
    cases r with
    | obj kvs =>
      by_cases hm : jEqInt (dictGet kvs "calendarYear") y = true
      · simp [searchRecords, hm, List.find?, recordYearMatches, projectJ]
      · have hrest := ih (fun x hx => h x (List.mem_cons_of_mem _ hx))
        simp [searchRecords, hm, List.find?, recordYearMatches, hrest]
    | null => simp [isObj] at hr
    | bool b => simp [isObj] at hr
    | num n => simp [isObj] at hr
    | str s => simp [isObj] at hr
    | arr l => simp [isObj] at hr

/-- Witness for C2: with two 2025 records in the list, the first one is the
one projected. -/
theorem C2_first_match_projection_witness :
    searchRecords
        [.obj [("calendarYear", .num 2025), ("accountPayables", .num 1)],
         .obj [("calendarYear", .num 2025), ("accountPayables", .num 2)]] 2025 =
      .ok ((List.find? (recordYearMatches 2025)
             [.obj [("calendarYear", .num 2025), ("accountPayables", .num 1)],
              .obj [("calendarYear", .num 2025), ("accountPayables", .num 2)]]).map projectJ) ∧
    (∀ s : String, jEqInt (.str s) 2025 = false) :=
  C2_first_match_projection
    [.obj [("calendarYear", .num 2025), ("accountPayables", .num 1)],
     .obj [("calendarYear", .num 2025), ("accountPayables", .num 2)]] 2025
    (by simp [isObj])

/-- A `handlePayload` run that yields no summary prints exactly one
diagnostic line. -/
theorem handlePayload_none_diag (y : Int) (d : JVal) :
    (handlePayload y d).2 = none → (handlePayload y d).1.length = 1 := by
  cases d with
  | obj kvs =>
    simp only [handlePayload]
    split
    · intro _; rfl
    · split
      · split
        · intro _; rfl
        · intro _; rfl
        · intro h; exact absurd h (by simp)
      · intro _; rfl
  | null => intro _; rfl
  | bool b => intro _; rfl
  | num n => intro _; rfl
  | str s => intro _; rfl
  | arr l => intro _; rfl

/-- A `tryFetch` run that yields no summary prints the fetching line plus at
least one diagnostic. -/
theorem tryFetch_none_diag (t : String) (y : Int) (o : HttpOutcome) :
    (tryFetch t y o).2 = none → 2 ≤ (tryFetch t y o).1.length := by
  cases o with
  | body p =>
    cases p with
    | none => intro _; simp [tryFetch]
    | some d =>
      rcases hhp : handlePayload y d with ⟨msgs, res⟩
      have hlen := handlePayload_none_diag y d
      rw [hhp] at hlen
      intro h
      simp only [tryFetch, hhp] at h ⊢
      have := hlen h
      simp [this]
  | timeout => intro _; simp [tryFetch]
  | connectionError => intro _; simp [tryFetch]
  | httpError st reason => intro _; simp [tryFetch]
  | otherError m => intro _; simp [tryFetch]

/-- Claim C4: once validation has passed, `get_account_payables` always
returns normally (no exception escapes): every post-validation failure is
collapsed into a `none` result together with at least one diagnostic line
after the fetching notice. -/
theorem C4_no_exception_after_validation (t y k : JVal) (net : HttpRequest → HttpOutcome)
    (h : validateArgs t y k = none) :
    ∃ msgs res, get_account_payables t y k net = .ok (msgs, res) ∧
      (res = none → 2 ≤ msgs.length) := by
  refine ⟨(tryFetch (jStrVal t) (pyIntVal y) (net (buildRequest (jStrVal t) (jStrVal k)))).1,
          (tryFetch (jStrVal t) (pyIntVal y) (net (buildRequest (jStrVal t) (jStrVal k)))).2,
          ?_, tryFetch_none_diag _ _ _⟩
  simp [get_account_payables, h]

/-- Witness for C4 on a concrete timed-out run with valid arguments. -/
theorem C4_no_exception_witness :
    ∃ msgs res,
      get_account_payables (.str "A") (.num 2000) (.str "K") (fun _ => .timeout) =
        .ok (msgs, res) ∧ (res = none → 2 ≤ msgs.length) :=
  C4_no_exception_after_validation (.str "A") (.num 2000) (.str "K") (fun _ => .timeout) rfl

/-- A passing validation bounds the year below by 1900. -/
theorem validateArgs_none_year_lb (t y k : JVal) (h : validateArgs t y k = none) :
    1900 ≤ pyIntVal y := by
  unfold validateArgs at h
  split_ifs at h with h1 h2 h3
  simp only [Bool.or_eq_true, Bool.not_eq_true', not_or, Bool.not_eq_false,
    decide_eq_true_eq] at h2
  omega

/-- If the year loop returns a summary and the target year is at least 1900,
the summary's `year` field is the target year as a JSON int (a boolean
`calendarYear` cannot match a year that large, and nothing else compares
equal to an int). -/
theorem searchRecords_some_year (y : Int) (hy : 1900 ≤ y) :
    ∀ (records : List JVal) (r : PayablesSummary),
      searchRecords records y = .ok (some r) → r.year = .num y := by
  intro records
  induction records with
  | nil => intro r h; simp [searchRecords] at h
  | cons x rest ih =>
    intro r h
    cases x with
    | obj kvs =>
      by_cases hm : jEqInt (dictGet kvs "calendarYear") y = true
      · simp only [searchRecords, hm, if_true] at h
        have hr : r = projectRecord kvs := by
          cases h; rfl
        cases hv : dictGet kvs "calendarYear" with
        | num n =>
          rw [hv] at hm
          simp only [jEqInt, beq_iff_eq] at hm
          subst hm
          rw [hr]
          simp [projectRecord, hv]
        | bool b =>
          rw [hv] at hm
          simp only [jEqInt, beq_iff_eq] at hm
          split at hm <;> omega
        | null => rw [hv] at hm; simp [jEqInt] at hm
        | str s => rw [hv] at hm; simp [jEqInt] at hm
        | arr l => rw [hv] at hm; simp [jEqInt] at hm
        | obj kvs2 => rw [hv] at hm; simp [jEqInt] at hm
      · simp only [searchRecords, hm, if_false, Bool.false_eq_true] at h
        exact ih r h
    | null => simp [searchRecords] at h
    | bool b => simp [searchRecords] at h
    | num n => simp [searchRecords] at h
    | str s => simp [searchRecords] at h
    | arr l => simp [searchRecords] at h

/-- A summary coming out of `handlePayload` comes out of the year loop. -/
theorem handlePayload_some_search (y : Int) (d : JVal) (msgs : List String)
    (r : PayablesSummary) (h : handlePayload y d = (msgs, some r)) :
    ∃ records, searchRecords records y = .ok (some r) := by
  cases d with
  | obj kvs =>
    simp only [handlePayload] at h
    split at h
    · simp at h
    · split at h
      · split at h
        · simp at h
        · simp at h
        · rename_i s hsr
          simp only [Prod.mk.injEq, Option.some.injEq] at h
          exact ⟨_, h.2 ▸ hsr⟩
      · simp at h
  | null => simp [handlePayload] at h
  | bool b => simp [handlePayload] at h
  | num n => simp [handlePayload] at h
  | str s => simp [handlePayload] at h
  | arr l => simp [handlePayload] at h

/-- A summary coming out of `tryFetch` comes out of `handlePayload` on a
successfully parsed body. -/
theorem tryFetch_some_payload (t : String) (y : Int) (o : HttpOutcome)
    (msgs : List String) (r : PayablesSummary) (h : tryFetch t y o = (msgs, some r)) :
    ∃ d msgs2, o = .body (some d) ∧ handlePayload y d = (msgs2, some r) := by
  cases o with
  | body p =>
    cases p with
    | none => simp [tryFetch] at h
    | some d =>
      rcases hhp : handlePayload y d with ⟨m2, res⟩
      simp only [tryFetch, hhp] at h
      cases res with
      | none => simp at h
      | some s =>
        simp only [Prod.mk.injEq, Option.some.injEq] at h
        exact ⟨d, m2, rfl, by rw [hhp, h.2]⟩
  | timeout => simp [tryFetch] at h
  | connectionError => simp [tryFetch] at h
  | httpError st reason => simp [tryFetch] at h
  | otherError m => simp [tryFetch] at h

/-- Claim C9: whenever `get_account_payables` returns a summary, its `year`
field is the requested fiscal year (copied from the matched record's
`calendarYear`, which was selected by equality with the request). -/
theorem C9_summary_year_is_requested (t y k : JVal) (net : HttpRequest → HttpOutcome)
    (msgs : List String) (r : PayablesSummary)
    (h : get_account_payables t y k net = .ok (msgs, some r)) :
    r.year = .num (pyIntVal y) := by
  unfold get_account_payables at h
  cases hv : validateArgs t y k with
  | some m => rw [hv] at h; simp at h
  | none =>
    rw [hv] at h
    simp only [Except.ok.injEq] at h
    obtain ⟨d, m2, -, hhp⟩ := tryFetch_some_payload _ _ _ _ _ h
    obtain ⟨records, hsr⟩ := handlePayload_some_search _ _ _ _ hhp
    exact searchRecords_some_year (pyIntVal y) (validateArgs_none_year_lb t y k hv) records r hsr

/-- The payload used by the C9 witness: one record for year 2031. -/
def c9payload : JVal :=
  .obj [("status", .str "success"),
        ("data", .arr [.obj [("calendarYear", .num 2031), ("accountPayables", .num 5)]])]

/-- Witness for C9 on a concrete fetched summary for year 2031. -/
theorem C9_summary_year_witness :
    ({ ticker := .null, company_name := .null, year := .num 2031, period := .null,
       filing_date := .null, accepted_date := .null, accountPayables := .num 5,
       currency := .null } : PayablesSummary).year = .num (pyIntVal (.num 2031)) :=
  C9_summary_year_is_requested (.str "W") (.num 2031) (.str "K")
    (fun _ => .body (some c9payload)) ["\nFetching data for W..."]
    { ticker := .null, company_name := .null, year := .num 2031, period := .null,
      filing_date := .null, accepted_date := .null, accountPayables := .num 5,
      currency := .null } rfl

/-- A summary whose `accountPayables` projected to null (field absent from
the matched record), used to refute the claim that the presenter never
fails on such summaries. -/
def nullPayablesSummary : PayablesSummary :=
  { ticker := .str "X", company_name := .str "ACME", year := .num 2025, period := .str "FY",
    filing_date := .null, accepted_date := .null, accountPayables := .null,
    currency := .str "USD" }

/-- Claim C7 as stated is false: on a summary whose `accountPayables` is
null the presenter does not write the full report — the f-string raises
`TypeError` after the ten header lines, so the payables line and closing
banner are never printed. -/
theorem C7_counterexample_null_payables :
    (display_account_payables (some nullPayablesSummary)).2 =
      some (.typeError "unsupported format string passed to NoneType.__format__") ∧
    (display_account_payables (some nullPayablesSummary)).1.length = 10 :=
  ⟨rfl, rfl⟩

/-- Claim C7 amended: for every summary whose `accountPayables` is an
integer, the presenter writes the full fixed-width bordered report with the
value formatted with thousands separators followed by the currency code, and
returns no exception; given null instead of a summary it writes the one-line
no-data notice; but a summary whose `accountPayables` is null raises a
formatting exception instead of completing the report. -/
theorem C7_display_report_amended :
    (∀ (r : PayablesSummary) (n : Int), r.accountPayables = .num n →
      display_account_payables (some r) =
        (["\n" ++ eq70, "ACCOUNT PAYABLES INFORMATION", eq70,
          "Company:             " ++ pyStr r.company_name,
          "Ticker:              " ++ pyStr r.ticker,
          "Year:                " ++ pyStr r.year,
          "Period:              " ++ pyStr r.period,
          "Filing Date:         " ++ pyStr r.filing_date,
          "Currency:            " ++ pyStr r.currency,
          dash70,
          "Account Payables:     " ++ fmtComma n ++ " " ++ pyStr r.currency,
          eq70 ++ "\n"], none)) ∧
    display_account_payables none = (["No data to display"], none) ∧
    fmtComma 1234567 = " 1,234,567" ∧
    (∀ r : PayablesSummary, r.accountPayables = .null →
      (display_account_payables (some r)).2.isSome = true) := by
  refine ⟨?_, rfl, rfl, ?_⟩
  · intro r n hn
    simp [display_account_payables, pyFormatSpaceComma, hn]
  · intro r hn
    simp [display_account_payables, pyFormatSpaceComma, hn]

/-- Witness for the amended C7 on a concrete summary with payables
1234567 USD. -/
theorem C7_display_report_witness :
    display_account_payables (some
      { ticker := .str "X", company_name := .str "ACME", year := .num 2025,
        period := .str "FY", filing_date := .str "2025-01-01", accepted_date := .null,
        accountPayables := .num 1234567, currency := .str "USD" }) =
      (["\n" ++ eq70, "ACCOUNT PAYABLES INFORMATION", eq70,
        "Company:             ACME",
        "Ticker:              X",
        "Year:                2025",
        "Period:              FY",
        "Filing Date:         2025-01-01",
        "Currency:            USD",
        dash70,
        "Account Payables:      1,234,567 USD",
        eq70 ++ "\n"], none) :=
  C7_display_report_amended.1
    { ticker := .str "X", company_name := .str "ACME", year := .num 2025,
      period := .str "FY", filing_date := .str "2025-01-01", accepted_date := .null,
      accountPayables := .num 1234567, currency := .str "USD" } 1234567 rfl

/-- An `.error` out of `get_account_payables` is exactly a validation
failure. -/
theorem get_payables_error_imp (t y k : JVal) (net : HttpRequest → HttpOutcome) (m : String)
    (h : get_account_payables t y k net = .error m) : validateArgs t y k = some m := by
  unfold get_account_payables at h
  cases hv : validateArgs t y k with
  | some m2 =>
    rw [hv] at h
    simp only [Except.error.injEq] at h
    rw [h]
  | none => rw [hv] at h; simp at h

/-- An `.ok` out of `get_account_payables` means validation passed. -/
theorem get_payables_ok_imp (t y k : JVal) (net : HttpRequest → HttpOutcome)
    (p : List String × Option PayablesSummary)
    (h : get_account_payables t y k net = .ok p) : validateArgs t y k = none := by
  unfold get_account_payables at h
  cases hv : validateArgs t y k with
  | some m2 => rw [hv] at h; simp at h
  | none => rfl

/-- The payload behind the C6 counterexample: a successful response whose
matching record for 2025 has no `accountPayables` field. -/
def missingPayablesPayload : JVal :=
  .obj [("status", .str "success"), ("data", .arr [.obj [("calendarYear", .num 2025)]])]

/-- Claim C6 as stated is false: with a real key, a non-empty ticker, a
parseable year and passing validation, the run can still exit 1 — the
fetched record has no `accountPayables`, the display f-string raises
`TypeError`, and the uncaught exception kills the process. -/
theorem C6_counterexample_display_crash :
    (mainRun "k" "T" "2025" (fun _ => .body (some missingPayablesPayload))).2 = 1 ∧
    "k" ≠ "INSERT YOUR API KEY" ∧
    normTicker "T" ≠ "" ∧
    pyParseInt "2025" = some 2025 ∧
    validateArgs (.str (normTicker "T")) (.num 2025) (.str "k") = none := by
  refine ⟨rfl, by decide, by decide, rfl, rfl⟩

/-- Claim C6 amended: the entry point exits with code 1 exactly when the key
constant is the unset placeholder, the normalised ticker is empty, the year
input fails to parse as an integer, validation raises, or the fetch returns
a summary whose `accountPayables` value is not numeric (the display/success
f-string then raises); in every other case, including a fetch or selection
that yields no data, it exits with code 0. -/
theorem C6_exit_code_amended (k t yi : String) (net : HttpRequest → HttpOutcome) :
    (mainRun k t yi net).2 = 1 ↔
      (k = "INSERT YOUR API KEY" ∨ normTicker t = "" ∨ pyParseInt yi = none ∨
       ∃ y, pyParseInt yi = some y ∧
         ((∃ m, validateArgs (.str (normTicker t)) (.num y) (.str k) = some m) ∨
          ∃ msgs r, get_account_payables (.str (normTicker t)) (.num y) (.str k) net =
              .ok (msgs, some r) ∧ (pyFormatSpaceComma r.accountPayables).isOk = false)) := by
  by_cases hk : k = "INSERT YOUR API KEY"
  · simp [mainRun, hk]
  · by_cases ht : normTicker t = ""
    · simp [mainRun, hk, ht]
    · cases hp : pyParseInt yi with
      | none => simp [mainRun, hk, ht, hp]
      | some y =>
        cases hg : get_account_payables (.str (normTicker t)) (.num y) (.str k) net with
        | error m =>
          have hv := get_payables_error_imp _ _ _ _ _ hg
          simp [mainRun, hk, ht, hp, hg]
          exact ⟨m, hv⟩
        | ok p =>
          obtain ⟨msgs, res⟩ := p
          have hv := get_payables_ok_imp _ _ _ _ _ hg
          cases res with
          | none =>
            simp [mainRun, hk, ht, hp, hg]
            intro x hx
            rw [hv] at hx
            cases hx
          | some r =>
            cases hf : pyFormatSpaceComma r.accountPayables with
            | ok s =>
              simp [mainRun, hk, ht, hp, hg, display_account_payables, hf]
              refine ⟨fun x hx => ?_, rfl⟩
              rw [hv] at hx
              cases hx
            | error e =>
              cases e with
              | valueError m =>
                simp [mainRun, hk, ht, hp, hg, display_account_payables, hf]
                exact .inr ⟨msgs, r, ⟨rfl, rfl⟩, by rw [hf]; rfl⟩
              | typeError m =>
                simp [mainRun, hk, ht, hp, hg, display_account_payables, hf]
                exact .inr ⟨msgs, r, ⟨rfl, rfl⟩, by rw [hf]; rfl⟩
